import Mathlib

/-!
Verification of the cubiomes height-sampling helper layer
(`crates/cubiomes-sys/cubiomes_helper.c`).

The C helper exposes two samplers over two stateful handles:

* `cubiomes_map_block_height` — the full-resolution (1:1) height sampler for
  the Overworld at MC 1.18 and above; its per-cell depth computation is
  replicated here from the C source, with the double-Perlin climate fields and
  the depth spline of the generator's `BiomeNoise` kept abstract (they are
  cubiomes internals the helper only calls through `sampleDoublePerlin` and
  `getSpline`).
* `cubiomes_map_approx_height` — a thin wrapper over the external
  `mapApproxHeight`, kept parametric in that external function.

Floating-point arithmetic (C `float`/`double`) is idealised as exact rational
arithmetic over `ℚ`; the C literals (`0.6666667f`, `0.33333334f`, `83.0f/160.0f`,
`0.015`, `10000.0f`, `76.0f`) are taken at their decimal face value.  The
caller-owned output buffer is modelled as a total map `ℤ → ℚ` that the sampler
updates pointwise, so "writes exactly these cells" is a statement about which
points of the map change.
-/

namespace Cubiomes

/-- Modelled from the spec: the dimension tags come from the cubiomes headers,
which are not part of this repository.  The spec enumerates
{Overworld, Nether, End}; cubiomes encodes them as distinct integers and the
helper compares `g->dim` against `DIM_OVERWORLD` only. -/
def DIM_OVERWORLD : ℤ := 0

/-- Modelled from the spec: the Nether dimension tag (cubiomes header value). -/
def DIM_NETHER : ℤ := -1

/-- Modelled from the spec: the End dimension tag (cubiomes header value). -/
def DIM_END : ℤ := 1

/-- Modelled from the spec: the enumerated version floor (MC 1.18) from the
cubiomes headers, which are not part of this repository.  The version enum is
ordered by release and the helper only compares the stored tag with `<`, so
the exact numeric value is immaterial to every claim. -/
def MC_1_18 : ℤ := 18

/-- Climate parameter id `NP_CONTINENTALNESS` (cubiomes header value). -/
def NP_CONTINENTALNESS : ℕ := 2

/-- Climate parameter id `NP_EROSION` (cubiomes header value). -/
def NP_EROSION : ℕ := 3

/-- Climate parameter id `NP_SHIFT` (cubiomes header value). -/
def NP_SHIFT : ℕ := 4

/-- Climate parameter id `NP_WEIRDNESS` (cubiomes header value). -/
def NP_WEIRDNESS : ℕ := 5

/-- The part of the cubiomes `BiomeNoise` state the helper reads: the
double-Perlin climate fields `bn->climate[...]` (one scalar field per
parameter id, sampled at a 3-D point) and the depth spline `bn->sp`
(evaluated on a vector of values by `getSpline`).  Both are cubiomes
internals; the helper only invokes them, so they are abstract here. -/
structure BiomeNoise where
  climate : ℕ → ℚ → ℚ → ℚ → ℚ
  sp : List ℚ → ℚ

/-- `sampleDoublePerlin(&bn->climate[np], x, y, z)` — sampling one climate
field of the biome-noise state at a 3-D point. -/
def sampleDoublePerlin (bn : BiomeNoise) (np : ℕ) (x y z : ℚ) : ℚ :=
  bn.climate np x y z

/-- `getSpline(bn->sp, vals)` — evaluating the generator's depth spline on a
vector of climate values. -/
def getSpline (bn : BiomeNoise) (vals : List ℚ) : ℚ :=
  bn.sp vals

/-- The cubiomes `Generator` fields the helper layer reads or writes:
version tag `mc`, behaviour `flags`, dimension `dim`, world `seed`, and the
owned biome-noise state `bn`. -/
@[ext]
structure Generator where
  mc : ℤ
  flags : ℕ
  dim : ℤ
  seed : ℕ
  bn : BiomeNoise

/-- The cubiomes `SurfaceNoise` handle: keyed by dimension and seed, with
internal octave state opaque to callers. -/
structure SurfaceNoise where
  dim : ℤ
  seed : ℕ
  octaves : ℕ → ℚ

/-- `cubiomes_generator_get_mc`. -/
def cubiomes_generator_get_mc (g : Generator) : ℤ := g.mc

/-- `cubiomes_generator_get_seed`. -/
def cubiomes_generator_get_seed (g : Generator) : ℕ := g.seed

/-- `cubiomes_generator_get_dim`. -/
def cubiomes_generator_get_dim (g : Generator) : ℤ := g.dim

/-- The structural and seed-derivation capabilities of the cubiomes engine
that `setupGenerator`/`applySeed` draw on.  Their bodies are not in this
repository; only their effect on the `Generator` fields is modelled. -/
structure Engine where
  shapeBN : ℤ → ℕ → BiomeNoise
  seedBN : BiomeNoise → ℤ → ℕ → ℤ → ℕ → BiomeNoise

/-- Modelled from the spec: `setupGenerator(g, mc, flags)` (cubiomes source,
not in this repository).  Structural phase: records the version and flags and
builds the climate-parameter/spline structural shape appropriate to them. -/
def setupGenerator (E : Engine) (g : Generator) (mc : ℤ) (flags : ℕ) : Generator :=
  { g with mc := mc, flags := flags, bn := E.shapeBN mc flags }

/-- Modelled from the spec: `applySeed(g, dim, seed)` (cubiomes source, not in
this repository).  Seed phase: records the dimension and seed and derives the
seed-dependent noise coefficients into the structural shape built by
`setupGenerator`, reading the version and flags recorded there. -/
def applySeed (E : Engine) (g : Generator) (dim : ℤ) (seed : ℕ) : Generator :=
  { g with dim := dim, seed := seed, bn := E.seedBN g.bn g.mc g.flags dim seed }

/-- `cubiomes_generator_init(g, mc, flags, dim, seed)`: structural setup
followed by seed application, in one call. -/
def cubiomes_generator_init (E : Engine) (g : Generator) (mc : ℤ) (flags : ℕ)
    (dim : ℤ) (seed : ℕ) : Generator :=
  applySeed E (setupGenerator E g mc flags) dim seed

/-- Pointwise update of the output buffer: the effect of `y[k] = v`. -/
def upd (y : ℤ → ℚ) (k : ℤ) (v : ℚ) : ℤ → ℚ :=
  fun m => if m = k then v else y m

/-- The body of the inner loop of `cubiomes_map_block_height`, for one output
cell `(i, j)` covering block coordinates `(bx + i, bz + j)`, transcribed from
the C source. -/
def blockHeightCell (bn : BiomeNoise) (bx bz i j : ℤ) : ℚ :=
  let x : ℚ := ((bx + i : ℤ) : ℚ) / 4
  let z : ℚ := ((bz + j : ℤ) : ℚ) / 4
  let px : ℚ := x + sampleDoublePerlin bn NP_SHIFT x 0 z * 4
  let pz : ℚ := z + sampleDoublePerlin bn NP_SHIFT z x 0 * 4
  let c : ℚ := sampleDoublePerlin bn NP_CONTINENTALNESS px 0 pz
  let e : ℚ := sampleDoublePerlin bn NP_EROSION px 0 pz
  let wv : ℚ := sampleDoublePerlin bn NP_WEIRDNESS px 0 pz
  let pv : ℚ := -3 * (|(|wv| - 6666667 / 10000000)| - 33333334 / 100000000)
  let off : ℚ := getSpline bn [c, e, pv, wv] + 15 / 1000
  let d : ℚ := 1 - 83 / 160 + off
  10000 * d / 76

/-- The inner loop `for (i = 0; i < w; i++)` of `cubiomes_map_block_height`
for row `j`: writes cells `i = 0, …, n-1` of that row into the buffer. -/
def rowWrite (bn : BiomeNoise) (bx bz w j : ℤ) : ℕ → (ℤ → ℚ) → ℤ → ℚ
  | 0, y => y
  | Nat.succ n, y =>
      upd (rowWrite bn bx bz w j n y) (j * w + (n : ℤ)) (blockHeightCell bn bx bz (n : ℤ) j)

/-- The outer loop `for (j = 0; j < h; j++)` of `cubiomes_map_block_height`:
writes rows `j = 0, …, m-1`, each of width `wN`. -/
def allRows (bn : BiomeNoise) (bx bz w : ℤ) (wN : ℕ) : ℕ → (ℤ → ℚ) → ℤ → ℚ
  | 0, y => y
  | Nat.succ m, y => rowWrite bn bx bz w (m : ℤ) wN (allRows bn bx bz w wN m y)

/-- `cubiomes_map_block_height(y, g, bx, bz, w, h)`: returns the C result code
together with the output buffer after the call.  Transcribed from the C
source: reject non-Overworld dimension, reject versions below `MC_1_18`,
otherwise fill the `w × h` region row-major and return `0`. -/
def cubiomes_map_block_height (g : Generator) (bx bz w h : ℤ) (y : ℤ → ℚ) :
    ℤ × (ℤ → ℚ) :=
  if g.dim ≠ DIM_OVERWORLD then (1, y)
  else if g.mc < MC_1_18 then (1, y)
  else (0, allRows g.bn bx bz w (Int.toNat w) (Int.toNat h) y)

/-- The type of the external `mapApproxHeight` function (cubiomes source, not
in this repository): from the incoming buffers, the two handles and the query
rectangle it produces a result code and the two output buffers.  Modelled from
the spec as a pure function — the computation has no other inputs. -/
def ApproxFn : Type :=
  (ℤ → ℚ) → (ℤ → ℤ) → Generator → SurfaceNoise → ℤ → ℤ → ℤ → ℤ → ℤ × (ℤ → ℚ) × (ℤ → ℤ)

/-- `cubiomes_map_approx_height(y, ids, g, sn, x, z, w, h)`: a direct
pass-through to the external `mapApproxHeight`. -/
def cubiomes_map_approx_height (mapApproxHeight : ApproxFn) (y : ℤ → ℚ) (ids : ℤ → ℤ)
    (g : Generator) (sn : SurfaceNoise) (x z w h : ℤ) : ℤ × (ℤ → ℚ) × (ℤ → ℤ) :=
  mapApproxHeight y ids g sn x z w h

/-- The full observable state of a `cubiomes_map_block_height` call: result
code, generator handle after the call, buffer after the call.  The C function
receives the generator through a `const Generator *` and performs no write
through it, so the handle passes through unchanged. -/
def cubiomes_map_block_height_call (g : Generator) (bx bz w h : ℤ) (y : ℤ → ℚ) :
    ℤ × Generator × (ℤ → ℚ) :=
  let r := cubiomes_map_block_height g bx bz w h y
  (r.1, g, r.2)

/-- The full observable state of a `cubiomes_map_approx_height` call: result
code, the two handles after the call, the two buffers after the call.  The C
function receives both handles through `const` pointers and performs no write
through them. -/
def cubiomes_map_approx_height_call (f : ApproxFn) (y : ℤ → ℚ) (ids : ℤ → ℤ)
    (g : Generator) (sn : SurfaceNoise) (x z w h : ℤ) :
    ℤ × Generator × SurfaceNoise × (ℤ → ℚ) × (ℤ → ℤ) :=
  let r := cubiomes_map_approx_height f y ids g sn x z w h
  (r.1, g, sn, r.2.1, r.2.2)

/-- The shifted x-coordinate `px` of one cell, as computed by the C source:
`px = x + sampleDoublePerlin(&bn->climate[NP_SHIFT], x, 0, z) * 4.0` with
`x = (bx + i) / 4.0`, `z = (bz + j) / 4.0`. -/
def pxAt (bn : BiomeNoise) (bx bz i j : ℤ) : ℚ :=
  let x : ℚ := ((bx + i : ℤ) : ℚ) / 4
  let z : ℚ := ((bz + j : ℤ) : ℚ) / 4
  x + sampleDoublePerlin bn NP_SHIFT x 0 z * 4

/-- The shifted z-coordinate `pz` of one cell, as computed by the C source:
`pz = z + sampleDoublePerlin(&bn->climate[NP_SHIFT], z, x, 0) * 4.0`. -/
def pzAt (bn : BiomeNoise) (bx bz i j : ℤ) : ℚ :=
  let x : ℚ := ((bx + i : ℤ) : ℚ) / 4
  let z : ℚ := ((bz + j : ℤ) : ℚ) / 4
  z + sampleDoublePerlin bn NP_SHIFT z x 0 * 4

/-- The spline input vector `np_param = {c, e, pv, w}` assembled by the C
source at a shifted sample point `(px, 0, pz)`. -/
def splineInputAt (bn : BiomeNoise) (px pz : ℚ) : List ℚ :=
  let c : ℚ := sampleDoublePerlin bn NP_CONTINENTALNESS px 0 pz
  let e : ℚ := sampleDoublePerlin bn NP_EROSION px 0 pz
  let wv : ℚ := sampleDoublePerlin bn NP_WEIRDNESS px 0 pz
  [c, e, -3 * (|(|wv| - 6666667 / 10000000)| - 33333334 / 100000000), wv]

/-- The tail of the per-cell computation after the raw spline value:
`off = <raw> + 0.015`, `d = 1.0 - 83.0/160.0 + off`,
`height = (10000.0 * d) / 76.0`. -/
def heightFromOffset (offRaw : ℚ) : ℚ :=
  10000 * (1 - 83 / 160 + (offRaw + 15 / 1000)) / 76

/-- The per-cell computation downstream of the shifted coordinates
`(px, pz)`: climate sampling, PV derivation, spline evaluation, depth and
scale conversion. -/
def depthFromShifted (bn : BiomeNoise) (px pz : ℚ) : ℚ :=
  heightFromOffset (getSpline bn (splineInputAt bn px pz))

lemma blockHeightCell_decomp (bn : BiomeNoise) (bx bz i j : ℤ) :
    blockHeightCell bn bx bz i j =
      depthFromShifted bn (pxAt bn bx bz i j) (pzAt bn bx bz i j) := rfl

lemma upd_self (y : ℤ → ℚ) (k : ℤ) (v : ℚ) : upd y k v k = v := if_pos rfl

lemma upd_of_ne (y : ℤ → ℚ) (k : ℤ) (v : ℚ) (m : ℤ) (h : m ≠ k) :
    upd y k v m = y m := if_neg h

lemma rowWrite_of_notin (bn : BiomeNoise) (bx bz w j : ℤ) :
    ∀ (n : ℕ) (y : ℤ → ℚ) (k : ℤ), (∀ i : ℕ, i < n → k ≠ j * w + (i : ℤ)) →
      rowWrite bn bx bz w j n y k = y k := by
  intro n
  induction n with
  | zero => intro y k _; rfl
  | succ n ih =>
      intro y k hk
      have h1 : k ≠ j * w + (n : ℤ) := hk n (Nat.lt_succ_self n)
      simp only [rowWrite]
      rw [upd_of_ne _ _ _ _ h1]
      exact ih y k fun i hi => hk i (Nat.lt_succ_of_lt hi)

lemma rowWrite_at (bn : BiomeNoise) (bx bz w j : ℤ) :
    ∀ (n : ℕ) (y : ℤ → ℚ) (i : ℕ), i < n →
      rowWrite bn bx bz w j n y (j * w + (i : ℤ)) = blockHeightCell bn bx bz (i : ℤ) j := by
  intro n
  induction n with
  | zero => intro y i hi; exact absurd hi (Nat.not_lt_zero i)
  | succ n ih =>
      intro y i hi
      rcases Nat.lt_succ_iff_lt_or_eq.mp hi with hlt | heq
      · have hne : j * w + (i : ℤ) ≠ j * w + (n : ℤ) := by
          intro hEq
          exact absurd (by exact_mod_cast add_left_cancel hEq : i = n) (Nat.ne_of_lt hlt)
        simp only [rowWrite]
        rw [upd_of_ne _ _ _ _ hne]
        exact ih y i hlt
      · subst heq
        simp only [rowWrite]
        exact upd_self _ _ _

lemma allRows_of_notin (bn : BiomeNoise) (bx bz w : ℤ) (wN : ℕ) :
    ∀ (m : ℕ) (y : ℤ → ℚ) (k : ℤ),
      (∀ (j i : ℕ), j < m → i < wN → k ≠ (j : ℤ) * w + (i : ℤ)) →
      allRows bn bx bz w wN m y k = y k := by
  intro m
  induction m with
  | zero => intro y k _; rfl
  | succ m ih =>
      intro y k hk
      simp only [allRows]
      refine (rowWrite_of_notin bn bx bz w (m : ℤ) wN _ k
        (fun i hi => hk m i (Nat.lt_succ_self m) hi)).trans ?_
      exact ih y k fun j i hj hi => hk j i (Nat.lt_succ_of_lt hj) hi

lemma allRows_at (bn : BiomeNoise) (bx bz w : ℤ) (wN : ℕ) (hwN : (wN : ℤ) = w) :
    ∀ (m : ℕ) (y : ℤ → ℚ) (i j : ℕ), i < wN → j < m →
      allRows bn bx bz w wN m y ((j : ℤ) * w + (i : ℤ)) =
        blockHeightCell bn bx bz (i : ℤ) (j : ℤ) := by
  intro m
  induction m with
  | zero => intro y i j _ hj; exact absurd hj (Nat.not_lt_zero j)
  | succ m ih =>
      intro y i j hi hj
      rcases Nat.lt_succ_iff_lt_or_eq.mp hj with hlt | heq
      · have hw0 : 0 ≤ w := hwN ▸ Int.natCast_nonneg wN
        have hne : ∀ i2 : ℕ, i2 < wN → (j : ℤ) * w + (i : ℤ) ≠ (m : ℤ) * w + (i2 : ℤ) := by
          intro i2 _ hEq
          have h1 : (j : ℤ) * w + (i : ℤ) < ((j : ℤ) + 1) * w := by
            rw [add_mul, one_mul]
            have hiw : (i : ℤ) < w := by rw [← hwN]; exact_mod_cast hi
            exact add_lt_add_left hiw _
          have h2 : ((j : ℤ) + 1) * w ≤ (m : ℤ) * w := by
            apply mul_le_mul_of_nonneg_right _ hw0
            exact_mod_cast (hlt : j + 1 ≤ m)
          have h3 : (j : ℤ) * w + (i : ℤ) < (m : ℤ) * w + (i2 : ℤ) :=
            lt_of_lt_of_le (lt_of_lt_of_le h1 h2) (le_add_of_nonneg_right (Int.natCast_nonneg i2))
          exact absurd hEq (ne_of_lt h3)
        simp only [allRows]
        exact (rowWrite_of_notin bn bx bz w (m : ℤ) wN _ _ hne).trans (ih y i j hi hlt)
      · subst heq
        simp only [allRows]
        exact rowWrite_at bn bx bz w (j : ℤ) wN _ i hi

lemma allRows_width_zero (bn : BiomeNoise) (bx bz w : ℤ) :
    ∀ (m : ℕ) (y : ℤ → ℚ), allRows bn bx bz w 0 m y = y := by
  intro m
  induction m with
  | zero => intro y; rfl
  | succ m ih => intro y; exact ih y

lemma map_block_height_supported (g : Generator) (bx bz w h : ℤ) (y : ℤ → ℚ)
    (hdim : g.dim = DIM_OVERWORLD) (hmc : MC_1_18 ≤ g.mc) :
    cubiomes_map_block_height g bx bz w h y =
      (0, allRows g.bn bx bz w (Int.toNat w) (Int.toNat h) y) := by
  unfold cubiomes_map_block_height
  rw [if_neg (not_not.mpr hdim), if_neg (not_lt.mpr hmc)]

lemma map_block_height_cell (g : Generator) (bx bz w h : ℤ) (y : ℤ → ℚ)
    (hdim : g.dim = DIM_OVERWORLD) (hmc : MC_1_18 ≤ g.mc)
    (i j : ℤ) (hi0 : 0 ≤ i) (hiw : i < w) (hj0 : 0 ≤ j) (hjh : j < h) :
    (cubiomes_map_block_height g bx bz w h y).2 (j * w + i) =
      blockHeightCell g.bn bx bz i j := by
  rw [map_block_height_supported g bx bz w h y hdim hmc]
  have hwN : ((Int.toNat w : ℕ) : ℤ) = w := Int.toNat_of_nonneg (le_of_lt (lt_of_le_of_lt hi0 hiw))
  obtain ⟨iN, rfl⟩ : ∃ iN : ℕ, (iN : ℤ) = i := ⟨i.toNat, Int.toNat_of_nonneg hi0⟩
  obtain ⟨jN, rfl⟩ : ∃ jN : ℕ, (jN : ℤ) = j := ⟨j.toNat, Int.toNat_of_nonneg hj0⟩
  have hiN : iN < Int.toNat w := by omega
  have hjN : jN < Int.toNat h := by omega
  exact allRows_at g.bn bx bz w (Int.toNat w) hwN (Int.toNat h) y iN jN hiN hjN

lemma map_block_height_frame (g : Generator) (bx bz w h : ℤ) (y : ℤ → ℚ)
    (hdim : g.dim = DIM_OVERWORLD) (hmc : MC_1_18 ≤ g.mc)
    (k : ℤ) (hk : ∀ i j : ℤ, 0 ≤ i → i < w → 0 ≤ j → j < h → k ≠ j * w + i) :
    (cubiomes_map_block_height g bx bz w h y).2 k = y k := by
  rw [map_block_height_supported g bx bz w h y hdim hmc]
  apply allRows_of_notin
  intro j i hj hi
  refine hk (i : ℤ) (j : ℤ) (Int.natCast_nonneg i) ?_ (Int.natCast_nonneg j) ?_
  · omega
  · omega

/-- A concrete biome-noise state used to exercise the samplers on explicit
inputs: simple but non-constant climate fields and a summing spline. -/
def bnW : BiomeNoise where
  climate := fun np x y z => ((np : ℚ) + x + 2 * y + 3 * z) / 16
  sp := fun vals => vals.foldl (· + ·) 0

/-- A concrete initialized generator in a supported configuration
(Overworld, version at the floor). -/
def gW : Generator where
  mc := MC_1_18
  flags := 0
  dim := DIM_OVERWORLD
  seed := 12345
  bn := bnW

/-- A concrete output buffer filled with a sentinel value. -/
def yW : ℤ → ℚ := fun _ => 37

/-- A concrete id buffer filled with a sentinel value. -/
def idsW : ℤ → ℤ := fun _ => 7

/-- A concrete surface-noise handle. -/
def snW : SurfaceNoise where
  dim := DIM_OVERWORLD
  seed := 12345
  octaves := fun _ => 0

/-- A concrete external approximate-height function. -/
def fW : ApproxFn := fun y ids _ _ _ _ _ _ => (0, y, ids)

/-- Claim C1: for every output cell `(i, j)` of the block-height sampler, the
climate coordinates are `x = (bx + i) / 4` and `z = (bz + j) / 4` (unrounded),
and the shifted coordinates are `px = x + 4 · shift(x, 0, z)` and
`pz = z + 4 · shift(z, x, 0)`, with the two shift-field samples using exactly
the permuted argument orders `(x, 0, z)` and `(z, x, 0)`. -/
theorem C1_block_height_shifted_coordinates (g : Generator) (bx bz w h : ℤ) (y : ℤ → ℚ)
    (hdim : g.dim = DIM_OVERWORLD) (hmc : MC_1_18 ≤ g.mc)
    (i j : ℤ) (hi0 : 0 ≤ i) (hiw : i < w) (hj0 : 0 ≤ j) (hjh : j < h) :
    (cubiomes_map_block_height g bx bz w h y).2 (j * w + i) =
      depthFromShifted g.bn
        (((bx + i : ℤ) : ℚ) / 4 +
          4 * sampleDoublePerlin g.bn NP_SHIFT
            (((bx + i : ℤ) : ℚ) / 4) 0 (((bz + j : ℤ) : ℚ) / 4))
        (((bz + j : ℤ) : ℚ) / 4 +
          4 * sampleDoublePerlin g.bn NP_SHIFT
            (((bz + j : ℤ) : ℚ) / 4) (((bx + i : ℤ) : ℚ) / 4) 0) := by
  rw [map_block_height_cell g bx bz w h y hdim hmc i j hi0 hiw hj0 hjh,
    blockHeightCell_decomp]
  have hx : pxAt g.bn bx bz i j =
      ((bx + i : ℤ) : ℚ) / 4 +
        4 * sampleDoublePerlin g.bn NP_SHIFT
          (((bx + i : ℤ) : ℚ) / 4) 0 (((bz + j : ℤ) : ℚ) / 4) := by
    simp only [pxAt]; ring
  have hz : pzAt g.bn bx bz i j =
      ((bz + j : ℤ) : ℚ) / 4 +
        4 * sampleDoublePerlin g.bn NP_SHIFT
          (((bz + j : ℤ) : ℚ) / 4) (((bx + i : ℤ) : ℚ) / 4) 0 := by
    simp only [pzAt]; ring
  rw [hx, hz]

/-- Witness for C1 at a concrete generator, origin `(3, 5)` and a `1 × 1`
region. -/
theorem C1_block_height_shifted_coordinates_witness :
    gW.dim = DIM_OVERWORLD ∧ MC_1_18 ≤ gW.mc ∧
    (0 : ℤ) ≤ 0 ∧ (0 : ℤ) < 1 ∧ (0 : ℤ) ≤ 0 ∧ (0 : ℤ) < 1 ∧
    (cubiomes_map_block_height gW 3 5 1 1 yW).2 (0 * 1 + 0) =
      depthFromShifted gW.bn
        (((3 + 0 : ℤ) : ℚ) / 4 +
          4 * sampleDoublePerlin gW.bn NP_SHIFT
            (((3 + 0 : ℤ) : ℚ) / 4) 0 (((5 + 0 : ℤ) : ℚ) / 4))
        (((5 + 0 : ℤ) : ℚ) / 4 +
          4 * sampleDoublePerlin gW.bn NP_SHIFT
            (((5 + 0 : ℤ) : ℚ) / 4) (((3 + 0 : ℤ) : ℚ) / 4) 0) :=
  ⟨rfl, by decide, by decide, by decide, by decide, by decide,
    C1_block_height_shifted_coordinates gW 3 5 1 1 yW rfl (by decide) 0 0
      (by decide) (by decide) (by decide) (by decide)⟩

/-- Claim C2: for every output cell, the peaks-and-valleys value passed as the
third component of the spline input is
`-3 · (|(|w| - 0.6666667)| - 0.33333334)` with exactly those constants, where
`w` is the weirdness sample at `(px, 0, pz)`, and the assembled spline input
vector is `[c, e, pv, w]` in that order. -/
theorem C2_block_height_pv_and_spline_vector (g : Generator) (bx bz w h : ℤ) (y : ℤ → ℚ)
    (hdim : g.dim = DIM_OVERWORLD) (hmc : MC_1_18 ≤ g.mc)
    (i j : ℤ) (hi0 : 0 ≤ i) (hiw : i < w) (hj0 : 0 ≤ j) (hjh : j < h) :
    (cubiomes_map_block_height g bx bz w h y).2 (j * w + i) =
      heightFromOffset (getSpline g.bn
        [ sampleDoublePerlin g.bn NP_CONTINENTALNESS
            (pxAt g.bn bx bz i j) 0 (pzAt g.bn bx bz i j),
          sampleDoublePerlin g.bn NP_EROSION
            (pxAt g.bn bx bz i j) 0 (pzAt g.bn bx bz i j),
          -3 * (|(|sampleDoublePerlin g.bn NP_WEIRDNESS
                (pxAt g.bn bx bz i j) 0 (pzAt g.bn bx bz i j)| -
              6666667 / 10000000)| - 33333334 / 100000000),
          sampleDoublePerlin g.bn NP_WEIRDNESS
            (pxAt g.bn bx bz i j) 0 (pzAt g.bn bx bz i j) ]) := by
  rw [map_block_height_cell g bx bz w h y hdim hmc i j hi0 hiw hj0 hjh]
  rfl

/-- Witness for C2 at a concrete generator, origin `(1, 2)` and a `1 × 1`
region. -/
theorem C2_block_height_pv_and_spline_vector_witness :
    gW.dim = DIM_OVERWORLD ∧ MC_1_18 ≤ gW.mc ∧
    (0 : ℤ) ≤ 0 ∧ (0 : ℤ) < 1 ∧ (0 : ℤ) ≤ 0 ∧ (0 : ℤ) < 1 ∧
    (cubiomes_map_block_height gW 1 2 1 1 yW).2 (0 * 1 + 0) =
      heightFromOffset (getSpline gW.bn
        [ sampleDoublePerlin gW.bn NP_CONTINENTALNESS
            (pxAt gW.bn 1 2 0 0) 0 (pzAt gW.bn 1 2 0 0),
          sampleDoublePerlin gW.bn NP_EROSION
            (pxAt gW.bn 1 2 0 0) 0 (pzAt gW.bn 1 2 0 0),
          -3 * (|(|sampleDoublePerlin gW.bn NP_WEIRDNESS
                (pxAt gW.bn 1 2 0 0) 0 (pzAt gW.bn 1 2 0 0)| -
              6666667 / 10000000)| - 33333334 / 100000000),
          sampleDoublePerlin gW.bn NP_WEIRDNESS
            (pxAt gW.bn 1 2 0 0) 0 (pzAt gW.bn 1 2 0 0) ]) :=
  ⟨rfl, by decide, by decide, by decide, by decide, by decide,
    C2_block_height_pv_and_spline_vector gW 1 2 1 1 yW rfl (by decide) 0 0
      (by decide) (by decide) (by decide) (by decide)⟩

/-- Claim C3: for every output cell, the stored value equals
`(10000 · d) / 76` with `d = 1 - 83/160 + offset + 0.015`, `offset` being the
depth-spline evaluation on `[c, e, pv, w]`; the `0.015` bias is added after
the spline evaluation, and the result passes through with no clamping (the
equality holds for every abstract noise/spline state, so arbitrarily extreme
spline outputs are stored as-is). -/
theorem C3_block_height_depth_and_scale (g : Generator) (bx bz w h : ℤ) (y : ℤ → ℚ)
    (hdim : g.dim = DIM_OVERWORLD) (hmc : MC_1_18 ≤ g.mc)
    (i j : ℤ) (hi0 : 0 ≤ i) (hiw : i < w) (hj0 : 0 ≤ j) (hjh : j < h) :
    (cubiomes_map_block_height g bx bz w h y).2 (j * w + i) =
      10000 * (1 - 83 / 160 +
        (getSpline g.bn
          (splineInputAt g.bn (pxAt g.bn bx bz i j) (pzAt g.bn bx bz i j)) +
          15 / 1000)) / 76 := by
  rw [map_block_height_cell g bx bz w h y hdim hmc i j hi0 hiw hj0 hjh]
  rfl

/-- Witness for C3 at a concrete generator, origin `(-2, 9)` and a `1 × 1`
region. -/
theorem C3_block_height_depth_and_scale_witness :
    gW.dim = DIM_OVERWORLD ∧ MC_1_18 ≤ gW.mc ∧
    (0 : ℤ) ≤ 0 ∧ (0 : ℤ) < 1 ∧ (0 : ℤ) ≤ 0 ∧ (0 : ℤ) < 1 ∧
    (cubiomes_map_block_height gW (-2) 9 1 1 yW).2 (0 * 1 + 0) =
      10000 * (1 - 83 / 160 +
        (getSpline gW.bn
          (splineInputAt gW.bn (pxAt gW.bn (-2) 9 0 0) (pzAt gW.bn (-2) 9 0 0)) +
          15 / 1000)) / 76 :=
  ⟨rfl, by decide, by decide, by decide, by decide, by decide,
    C3_block_height_depth_and_scale gW (-2) 9 1 1 yW rfl (by decide) 0 0
      (by decide) (by decide) (by decide) (by decide)⟩

/-- Claim C4: the block-height sampler returns the distinguished result `1`
exactly when the generator's dimension is not Overworld or its version is
below `MC_1_18`; in that case the output buffer is left entirely unchanged,
and in the supported case the result is `0`. -/
theorem C4_block_height_unsupported_iff (g : Generator) (bx bz w h : ℤ) (y : ℤ → ℚ) :
    ((cubiomes_map_block_height g bx bz w h y).1 = 1 ↔
      (g.dim ≠ DIM_OVERWORLD ∨ g.mc < MC_1_18))
    ∧ ((g.dim ≠ DIM_OVERWORLD ∨ g.mc < MC_1_18) →
        (cubiomes_map_block_height g bx bz w h y).2 = y)
    ∧ ((g.dim = DIM_OVERWORLD ∧ MC_1_18 ≤ g.mc) →
        (cubiomes_map_block_height g bx bz w h y).1 = 0) := by
  refine ⟨?_, ?_, ?_⟩
  · by_cases hd : g.dim = DIM_OVERWORLD
    · by_cases hm : g.mc < MC_1_18
      · simp [cubiomes_map_block_height, hd, hm]
      · simp [cubiomes_map_block_height, hd, hm]
    · simp [cubiomes_map_block_height, hd]
  · intro hcase
    rcases hcase with hd | hm
    · simp [cubiomes_map_block_height, hd]
    · by_cases hd : g.dim = DIM_OVERWORLD
      · simp [cubiomes_map_block_height, hd, hm]
      · simp [cubiomes_map_block_height, hd]
  · intro hsup
    simp [cubiomes_map_block_height, hsup.1, not_lt.mpr hsup.2]

/-- Claim C5: for every supported configuration and `w ≥ 1`, `h ≥ 1`, the
block-height sampler writes exactly the cells `y[j·w + i]` for `0 ≤ i < w`,
`0 ≤ j < h` (row-major), leaves every other element of the caller-owned
buffer untouched, and returns success. -/
theorem C5_block_height_writes_exactly (g : Generator) (bx bz w h : ℤ) (y : ℤ → ℚ)
    (hdim : g.dim = DIM_OVERWORLD) (hmc : MC_1_18 ≤ g.mc) (_hw : 1 ≤ w) (_hh : 1 ≤ h) :
    (∀ i j : ℤ, 0 ≤ i → i < w → 0 ≤ j → j < h →
      (cubiomes_map_block_height g bx bz w h y).2 (j * w + i) =
        blockHeightCell g.bn bx bz i j)
    ∧ (∀ k : ℤ, (∀ i j : ℤ, 0 ≤ i → i < w → 0 ≤ j → j < h → k ≠ j * w + i) →
        (cubiomes_map_block_height g bx bz w h y).2 k = y k)
    ∧ (cubiomes_map_block_height g bx bz w h y).1 = 0 := by
  refine ⟨?_, ?_, ?_⟩
  · intro i j hi0 hiw hj0 hjh
    exact map_block_height_cell g bx bz w h y hdim hmc i j hi0 hiw hj0 hjh
  · intro k hk
    exact map_block_height_frame g bx bz w h y hdim hmc k hk
  · rw [map_block_height_supported g bx bz w h y hdim hmc]

/-- Witness for C5 on a `2 × 2` region: the corner cell `(1, 1)` receives its
per-cell value, the out-of-region index `4` keeps the sentinel, and the call
returns `0`. -/
theorem C5_block_height_writes_exactly_witness :
    gW.dim = DIM_OVERWORLD ∧ MC_1_18 ≤ gW.mc ∧ (1 : ℤ) ≤ 2 ∧ (1 : ℤ) ≤ 2 ∧
    (cubiomes_map_block_height gW 0 0 2 2 yW).2 (1 * 2 + 1) =
      blockHeightCell gW.bn 0 0 1 1 ∧
    (cubiomes_map_block_height gW 0 0 2 2 yW).2 4 = yW 4 ∧
    (cubiomes_map_block_height gW 0 0 2 2 yW).1 = 0 := by
  have h := C5_block_height_writes_exactly gW 0 0 2 2 yW rfl (by decide) (by decide) (by decide)
  exact ⟨rfl, by decide, by decide, by decide,
    h.1 1 1 (by decide) (by decide) (by decide) (by decide),
    h.2.1 4 (by intro i j hi0 hiw hj0 hjh; omega),
    h.2.2⟩

/-- Claim C6: for fixed handle contents and fixed call arguments, the two
samplers are deterministic — their results are a function of the handle
fields and the arguments alone (the embedding is pure, so repeated calls are
literally the same value; this theorem states the dependence on handle
contents only). -/
theorem C6_samplers_deterministic (g1 g2 : Generator)
    (h1 : g1.mc = g2.mc) (h2 : g1.flags = g2.flags) (h3 : g1.dim = g2.dim)
    (h4 : g1.seed = g2.seed) (h5 : g1.bn = g2.bn)
    (f : ApproxFn) (y : ℤ → ℚ) (ids : ℤ → ℤ) (sn : SurfaceNoise)
    (bx bz x z w h : ℤ) :
    cubiomes_map_block_height g1 bx bz w h y =
      cubiomes_map_block_height g2 bx bz w h y
    ∧ cubiomes_map_approx_height f y ids g1 sn x z w h =
        cubiomes_map_approx_height f y ids g2 sn x z w h := by
  have hg : g1 = g2 := Generator.ext h1 h2 h3 h4 h5
  rw [hg]
  exact ⟨rfl, rfl⟩

/-- Witness for C6 at a concrete generator and concrete call arguments. -/
theorem C6_samplers_deterministic_witness :
    gW.mc = gW.mc ∧ gW.flags = gW.flags ∧ gW.dim = gW.dim ∧
    gW.seed = gW.seed ∧ gW.bn = gW.bn ∧
    (cubiomes_map_block_height gW 0 0 1 1 yW =
      cubiomes_map_block_height gW 0 0 1 1 yW
    ∧ cubiomes_map_approx_height fW yW idsW gW snW 0 0 1 1 =
        cubiomes_map_approx_height fW yW idsW gW snW 0 0 1 1) :=
  ⟨rfl, rfl, rfl, rfl, rfl,
    C6_samplers_deterministic gW gW rfl rfl rfl rfl rfl fW yW idsW snW 0 0 0 0 1 1⟩

/-- Claim C7: neither sampler mutates the handles it reads: the block-height
call leaves the generator handle unchanged, and the approximate-height call
leaves both the generator and the surface-noise handle unchanged; only the
caller-provided output buffers are produced. -/
theorem C7_samplers_preserve_handles (g : Generator) (sn : SurfaceNoise) (f : ApproxFn)
    (y : ℤ → ℚ) (ids : ℤ → ℤ) (bx bz x z w h : ℤ) :
    (cubiomes_map_block_height_call g bx bz w h y).2.1 = g
    ∧ (cubiomes_map_approx_height_call f y ids g sn x z w h).2.1 = g
    ∧ (cubiomes_map_approx_height_call f y ids g sn x z w h).2.2.1 = sn :=
  ⟨rfl, rfl, rfl⟩

/-- Claim C8: `cubiomes_generator_init` performs structural setup then seed
application, in that order, as one operation, and fully overwrites any prior
handle state: its result does not depend on the handle passed in. -/
theorem C8_generator_init_two_phase_overwrite (E : Engine) (g g2 : Generator)
    (mc : ℤ) (flags : ℕ) (dim : ℤ) (seed : ℕ) :
    cubiomes_generator_init E g mc flags dim seed =
      applySeed E (setupGenerator E g mc flags) dim seed
    ∧ cubiomes_generator_init E g mc flags dim seed =
        cubiomes_generator_init E g2 mc flags dim seed := by
  refine ⟨rfl, ?_⟩
  cases g
  cases g2
  rfl

/-- Claim C9: re-initialization is idempotent — initializing twice with the
same arguments yields the same handle as initializing once, and hence the
same block-height sampler output on every query region. -/
theorem C9_generator_init_idempotent (E : Engine) (g : Generator) (mc : ℤ) (flags : ℕ)
    (dim : ℤ) (seed : ℕ) (bx bz w h : ℤ) (y : ℤ → ℚ) :
    cubiomes_generator_init E (cubiomes_generator_init E g mc flags dim seed)
        mc flags dim seed =
      cubiomes_generator_init E g mc flags dim seed
    ∧ cubiomes_map_block_height
        (cubiomes_generator_init E (cubiomes_generator_init E g mc flags dim seed)
          mc flags dim seed) bx bz w h y =
      cubiomes_map_block_height (cubiomes_generator_init E g mc flags dim seed)
        bx bz w h y := by
  have hg : cubiomes_generator_init E (cubiomes_generator_init E g mc flags dim seed)
      mc flags dim seed = cubiomes_generator_init E g mc flags dim seed := by
    cases g
    rfl
  exact ⟨hg, by rw [hg]⟩

/-- Claim C10: in a supported configuration, a request with non-positive
width or height returns success and writes nothing — a degenerate region is
not an error. -/
theorem C10_block_height_empty_region (g : Generator) (bx bz w h : ℤ) (y : ℤ → ℚ)
    (hdim : g.dim = DIM_OVERWORLD) (hmc : MC_1_18 ≤ g.mc) (hwh : w ≤ 0 ∨ h ≤ 0) :
    (cubiomes_map_block_height g bx bz w h y).1 = 0
    ∧ (cubiomes_map_block_height g bx bz w h y).2 = y := by
  rw [map_block_height_supported g bx bz w h y hdim hmc]
  refine ⟨rfl, ?_⟩
  rcases hwh with hw | hh
  · have hz : Int.toNat w = 0 := by omega
    rw [hz]
    exact allRows_width_zero g.bn bx bz w (Int.toNat h) y
  · have hz : Int.toNat h = 0 := by omega
    rw [hz]
    rfl

/-- Witness for C10 with a zero-width region of positive height. -/
theorem C10_block_height_empty_region_witness :
    gW.dim = DIM_OVERWORLD ∧ MC_1_18 ≤ gW.mc ∧ ((0 : ℤ) ≤ 0 ∨ (5 : ℤ) ≤ 0) ∧
    ((cubiomes_map_block_height gW 0 0 0 5 yW).1 = 0
    ∧ (cubiomes_map_block_height gW 0 0 0 5 yW).2 = yW) :=
  ⟨rfl, by decide, Or.inl (by decide),
    C10_block_height_empty_region gW 0 0 0 5 yW rfl (by decide) (Or.inl (by decide))⟩

end Cubiomes
